import Mathlib

/-!
Verification of the tinacms repository fragment:
* `packages/gatsby-tinacms-git/media-git.ts` — the `GitMediaStore` media adapter;
* `packages/@tinacms/fields/src/Wysiwyg/useProsemirror.tsx` — the Prosemirror
  editor integration hook;
* the `createEditorState` construction function.

The TypeScript code is shallowly embedded: async methods become pure functions
(the single awaited network call becomes an `Except`-valued client function),
object methods return the method result together with the post-state of the
object, and the React effect callbacks become explicit functions on a hook
state, with closure captures made explicit.
-/

/-! ## Media store data model (media-git.ts) -/

/-- Media descriptor `{ src, previewSrc, reference }` from the
`tinacms` `Media` interface. -/
structure Media where
  src : String
  previewSrc : String
  reference : String
deriving DecidableEq

/-- Upload request `{ directory, file }` from `MediaUploadOptions`.
The file content is modelled as an opaque string blob. -/
structure MediaUploadOptions where
  directory : String
  file : String
deriving DecidableEq

/-- Argument object `{ directory, content }` passed to
`client.writeMediaToDisk`. -/
structure WriteMediaParams where
  directory : String
  content : String
deriving DecidableEq

/-- The parsed JSON body of a successful write response:
`const data: { filename: string } = await response.json()`. -/
structure UploadResponse where
  filename : String
deriving DecidableEq

/-- The external `GitClient`: `writeMediaToDisk` followed by `response.json()`,
collapsed into one fallible call.  An `Except.error` models a rejected
promise (network failure or unparsable body). -/
def GitClient := WriteMediaParams → Except String UploadResponse

/-- The `GitMediaStore` class: the `accept` field and the private `client`
set by the constructor. -/
structure GitMediaStore where
  accept : String
  client : GitClient

/-- The constructor `new GitMediaStore(client)`: the class field initializer
sets `accept = '*'`. -/
def GitMediaStore.new (client : GitClient) : GitMediaStore :=
  { accept := "*", client := client }

/-- The argument built for each request in the `persist` loop:
`{ directory, content: file }`. -/
def writeParamsOf (f : MediaUploadOptions) : WriteMediaParams :=
  { directory := f.directory, content := f.file }

/-- `persist(files)`, instrumented with the trace of write calls it issues.
The first component lists the `writeMediaToDisk` arguments in call order;
the second is the returned `uploaded` list, or the propagated error of the
first failing write.  The loop body awaits the client call, then pushes
`{ src: data.filename, previewSrc: data.filename, reference: data.filename }`. -/
def GitMediaStore.persistRun (s : GitMediaStore) :
    List MediaUploadOptions → List WriteMediaParams × Except String (List Media)
  | [] => ([], Except.ok [])
  | f :: rest =>
    match s.client (writeParamsOf f) with
    | Except.error e => ([writeParamsOf f], Except.error e)
    | Except.ok data =>
      (writeParamsOf f :: (s.persistRun rest).1,
        ((s.persistRun rest).2).map fun ms =>
          ({ src := data.filename, previewSrc := data.filename,
             reference := data.filename } : Media) :: ms)

/-- The value `persist(files)` settles with: the `uploaded` array on success,
the propagated error otherwise. -/
def GitMediaStore.persist (s : GitMediaStore) (files : List MediaUploadOptions) :
    Except String (List Media) :=
  (s.persistRun files).2

/-- The per-request pipeline of the `persist` loop body, factored out for
specification: the descriptor produced for one upload request, when its
write call succeeds. -/
def descriptorOf (s : GitMediaStore) (f : MediaUploadOptions) : Option Media :=
  match s.client (writeParamsOf f) with
  | Except.error _ => none
  | Except.ok data =>
    some { src := data.filename, previewSrc := data.filename,
           reference := data.filename }

/-- `list()`: `return []`; no field of `this` is assigned, so the post-state
is the receiver. -/
def GitMediaStore.list (s : GitMediaStore) : List Media × GitMediaStore :=
  ([], s)

/-- `delete()`: empty body; no field of `this` is assigned. -/
def GitMediaStore.delete (s : GitMediaStore) : Unit × GitMediaStore :=
  ((), s)

/-- `find()`: returns the hardcoded placeholder descriptor; no field of
`this` is assigned. -/
def GitMediaStore.find (s : GitMediaStore) : Media × GitMediaStore :=
  ({ src := "test.jpg", previewSrc := "test.jpg", reference := "test.jpg" }, s)

/-- `persist(files)` as an object method: result paired with the post-state
of the store; the loop assigns no field of `this`. -/
def GitMediaStore.persistM (s : GitMediaStore) (files : List MediaUploadOptions) :
    (List WriteMediaParams × Except String (List Media)) × GitMediaStore :=
  (s.persistRun files, s)

/-! ## Editor integration data model (useProsemirror.tsx, state.ts) -/

/-- The `Translator` used by the hook: `nodeFromString` parses the external
string value into a document tree, `stringFromNode` re-serializes one.
The document type `Doc` is owned by the embedded engine and kept abstract. -/
structure Translator (Doc : Type) where
  nodeFromString : String → Doc
  stringFromNode : Doc → String

/-- A Prosemirror transaction, restricted to the two members the hook reads:
`tr.docChanged` and `tr.doc`. -/
structure Transaction (Doc : Type) where
  docChanged : Bool
  doc : Doc
deriving DecidableEq

/-- Tags identifying the extension plugins assembled by `createEditorState`,
one per element of its `plugins:` array literal. -/
inductive StatePluginTag where
  | inputRulesTag
  | keymapTag
  | historyTag
  | linksTag
  | dropCursorTag
  | gapCursorTag
  | tableEditingTag
  | tablePluginTag
  | imagePluginTag
deriving DecidableEq

/-- The result of `EditorState.create`, restricted to what the claims
observe: the parsed document and the identities, in order, of the attached
extension plugins. -/
structure EditorStateModel (Doc : Type) where
  doc : Doc
  statePlugins : List StatePluginTag
deriving DecidableEq

/-- `createEditorState(schema, translator, plugins, value)` from `state.ts`:
`doc` is `translator.nodeFromString(value)` and the plugin array is the
literal `[inputRules(schema), keymap(buildKeymap(schema, plugins)), history(),
links(schema), dropCursor(...), gapCursor(), tableEditing(), tablePlugin,
imagePlugin]`; the individual plugin values depend on `schema` and `plugins`
but their identities and order are fixed by the literal. -/
def createEditorState {Doc Schema TinaPlugin : Type} (_schema : Schema)
    (translator : Translator Doc) (_plugins : List TinaPlugin)
    (value : String) : EditorStateModel Doc :=
  { doc := translator.nodeFromString value
    statePlugins :=
      [ StatePluginTag.inputRulesTag
      , StatePluginTag.keymapTag
      , StatePluginTag.historyTag
      , StatePluginTag.linksTag
      , StatePluginTag.dropCursorTag
      , StatePluginTag.gapCursorTag
      , StatePluginTag.tableEditingTag
      , StatePluginTag.tablePluginTag
      , StatePluginTag.imagePluginTag ] }

/-- One primitive effect performed by the `dispatchTransaction` callback:
`view.updateState(nextState)`, `setEditorView({ view })`, or
`input.onChange(string)`.  `St` is the engine's editor-state type. -/
inductive DispatchEffect (St : Type) where
  | updateState (s : St)
  | setEditorView
  | onChange (s : String)
deriving DecidableEq

/-- The `dispatchTransaction(tr)` callback, as the ordered list of effects it
performs: it computes `nextState = view.state.apply(tr)`, calls
`view.updateState(nextState)` and `setEditorView({ view })`, and then, only
if `tr.docChanged`, calls `input.onChange(translator.stringFromNode(tr.doc))`.
`applyTr` is the engine's `state.apply` and `viewState` the current
`view.state`. -/
def dispatchTransaction {Doc St : Type} (applyTr : St → Transaction Doc → St)
    (translator : Translator Doc) (viewState : St) (tr : Transaction Doc) :
    List (DispatchEffect St) :=
  DispatchEffect.updateState (applyTr viewState tr) ::
    DispatchEffect.setEditorView ::
      (if tr.docChanged then
        [DispatchEffect.onChange (translator.stringFromNode tr.doc)]
      else [])

/-- The arguments passed to `input.onChange` during a list of effects,
in order. -/
def onChangePayloads {St : Type} : List (DispatchEffect St) → List String
  | [] => []
  | DispatchEffect.onChange s :: es => s :: onChangePayloads es
  | DispatchEffect.updateState _ :: es => onChangePayloads es
  | DispatchEffect.setEditorView :: es => onChangePayloads es

/-- The mount element `el`, restricted to the one question the hook asks of
it: whether `el.contains(document.activeElement)` holds right now. -/
structure MountElem where
  containsActiveElement : Bool
deriving DecidableEq

/-- The `editorView.view` object as seen by the second effect: its current
state and whether its `docView` is non-null (`CheckableEditorView.docView`). -/
structure EditorViewBox (St : Type) where
  state : St
  docViewPresent : Bool
deriving DecidableEq

/-- The body of the second `React.useEffect` (the external-value effect):
`if (!el) return; if (!editorView || !editorView.view) return;
if (!editorView.view.docView) return;` then, when
`!el.contains(document.activeElement)`, call
`editorView.view.updateState(createState(input.value))`.
Returns `some nextState` when `updateState` is called with `nextState`,
and `none` when the effect performs no state update. -/
def externalValueEffect {St : Type} (createState : String → St)
    (el : Option MountElem) (editorView : Option (EditorViewBox St))
    (value : String) : Option St :=
  match el with
  | none => none
  | some e =>
    match editorView with
    | none => none
    | some v =>
      if v.docViewPresent = false then none
      else if e.containsActiveElement then none
      else some (createState value)

/-- The view state after the external-value effect: `updateState` replaces
`view.state` when it was called, otherwise the view is untouched. -/
def applyExternalUpdate {St : Type} (v : EditorViewBox St) :
    Option St → EditorViewBox St
  | none => v
  | some st => { v with state := st }

/-! ## Lifecycle of the `setupEditor` effect

The first `React.useEffect` (named `setupEditor`, deps `[el]`) creates an
`EditorView` and returns the cleanup
`() => { setEditorView(undefined); if (editorView) view.destroy() }`.
The cleanup closure reads `editorView` from the render in which the effect
closure was created, so the guard tests that captured snapshot, not the
current state.  The model gives created views consecutive numeric ids and
records which ids get `destroy()`ed. -/

/-- The cleanup closure returned by one run of `setupEditor`: the id of the
view it would destroy, and the snapshot of the `editorView` state variable
captured when the effect closure was created. -/
structure EffectCleanup where
  viewId : Nat
  capturedEditorView : Option Nat
deriving DecidableEq

/-- The hook-relevant component state: the two `useState` variables `el` and
`editorView` (the latter as the id of the held view), the `[el]` deps value
at the last `setupEditor` run, the pending cleanup, the next fresh view id,
and the histories of created and destroyed view ids. -/
structure WysiwygHookState where
  el : Option MountElem
  editorView : Option Nat
  lastDeps : Option (Option MountElem)
  cleanup : Option EffectCleanup
  nextViewId : Nat
  createdViews : List Nat
  destroyedViews : List Nat
deriving DecidableEq

/-- Component state before the first render: both state variables unset,
`setupEditor` never run. -/
def initialHookState : WysiwygHookState :=
  { el := none, editorView := none, lastDeps := none, cleanup := none,
    nextViewId := 0, createdViews := [], destroyedViews := [] }

/-- Run the pending cleanup, if any: `setEditorView(undefined)`, then
`if (editorView) view.destroy()` where `editorView` is the closure's
captured snapshot. -/
def runPendingCleanup (s : WysiwygHookState) : WysiwygHookState :=
  match s.cleanup with
  | none => s
  | some c =>
    let s1 := { s with editorView := none, cleanup := none }
    if c.capturedEditorView.isSome then
      { s1 with destroyedViews := s1.destroyedViews ++ [c.viewId] }
    else s1

/-- Run `setupEditor` after a render, honoring its `[el]` deps: skip when
`el` is unchanged since the last run; otherwise run the previous cleanup,
then the effect body.  The body exits early when `el` is unset; otherwise it
creates a fresh `EditorView`, whose returned cleanup captures the
`editorView` snapshot of the triggering render, and calls
`setEditorView({ view })`. -/
def runSetupEditor (s : WysiwygHookState) : WysiwygHookState :=
  if s.lastDeps = some s.el then s
  else
    let captured := s.editorView
    let s1 := runPendingCleanup s
    match s1.el with
    | none => { s1 with lastDeps := some s1.el }
    | some _ =>
      let vid := s1.nextViewId
      { s1 with
        lastDeps := some s1.el
        nextViewId := vid + 1
        createdViews := s1.createdViews ++ [vid]
        cleanup := some { viewId := vid, capturedEditorView := captured }
        editorView := some vid }

/-- Host events driving the hook: the `elRef` callback attaching a mount
element (followed by a render and the effect pass), and unmount (which runs
the pending cleanup). -/
inductive WysiwygEvent where
  | attachElement (e : MountElem)
  | unmount
deriving DecidableEq

/-- One host event applied to the component state. -/
def wysiwygStep (s : WysiwygHookState) : WysiwygEvent → WysiwygHookState
  | WysiwygEvent.attachElement e => runSetupEditor { s with el := some e }
  | WysiwygEvent.unmount => runPendingCleanup s

/-- The component state after a sequence of host events, starting from the
initial render. -/
def runWysiwyg (events : List WysiwygEvent) : WysiwygHookState :=
  events.foldl wysiwygStep initialHookState

/-! ## Theorems about the media store -/

/-- Helper: a successful `persist` pairs the requests with their descriptors
positionally, each descriptor being the per-request pipeline's output. -/
theorem persistRun_ok_forall2 (s : GitMediaStore) (files : List MediaUploadOptions) :
    ∀ ms : List Media, (s.persistRun files).2 = Except.ok ms →
      List.Forall₂ (fun f m => descriptorOf s f = some m) files ms := by
  induction files with
  | nil =>
    intro ms h
    simp [GitMediaStore.persistRun] at h
    simp [← h]
  | cons f rest ih =>
    intro ms h
    cases hc : s.client (writeParamsOf f) with
    | error e => simp [GitMediaStore.persistRun, hc] at h
    | ok data =>
      simp only [GitMediaStore.persistRun, hc] at h
      cases hr : (s.persistRun rest).2 with
      | error e2 => rw [hr] at h; simp [Except.map] at h
      | ok tl =>
        rw [hr] at h
        simp [Except.map] at h
        subst h
        exact List.Forall₂.cons (by simp [descriptorOf, hc]) (ih tl hr)

/-- C1: for every upload list of length N that `persist` completes on, it
returns exactly N media descriptors, in input order, the descriptor at
position i being produced from the request at position i. -/
theorem persist_returns_one_descriptor_per_request_in_order
    (s : GitMediaStore) (files : List MediaUploadOptions) (ms : List Media)
    (h : s.persist files = Except.ok ms) :
    ms.length = files.length ∧
      List.Forall₂ (fun f m => descriptorOf s f = some m) files ms := by
  have h2 := persistRun_ok_forall2 s files ms h
  exact ⟨h2.length_eq.symm, h2⟩

/-- A client whose write call always succeeds, echoing the file content as
the stored filename. -/
def demoClient : GitClient :=
  fun p => Except.ok { filename := p.content }

/-- A concrete store over `demoClient`. -/
def demoStore : GitMediaStore :=
  GitMediaStore.new demoClient

/-- A concrete two-element upload list. -/
def demoFiles : List MediaUploadOptions :=
  [ { directory := "uploads", file := "a.png" },
    { directory := "uploads", file := "b.png" } ]

/-- The descriptors `demoStore.persist demoFiles` returns. -/
def demoMedias : List Media :=
  [ { src := "a.png", previewSrc := "a.png", reference := "a.png" },
    { src := "b.png", previewSrc := "b.png", reference := "b.png" } ]

/-- Witness for C1 at a concrete store and upload list. -/
theorem persist_returns_one_descriptor_per_request_in_order_witness :
    demoStore.persist demoFiles = Except.ok demoMedias ∧
      (demoMedias.length = demoFiles.length ∧
        List.Forall₂ (fun f m => descriptorOf demoStore f = some m)
          demoFiles demoMedias) :=
  ⟨rfl, persist_returns_one_descriptor_per_request_in_order
    demoStore demoFiles demoMedias rfl⟩

/-- C6: every descriptor a successful `persist` returns has `src`,
`previewSrc` and `reference` all equal to the `filename` parsed from that
request's response. -/
theorem persist_descriptor_fields_all_filename
    (s : GitMediaStore) (files : List MediaUploadOptions) (ms : List Media)
    (h : s.persist files = Except.ok ms) :
    List.Forall₂ (fun f m => ∃ data,
      s.client (writeParamsOf f) = Except.ok data ∧
        m.src = data.filename ∧ m.previewSrc = data.filename ∧
          m.reference = data.filename) files ms := by
  refine (persistRun_ok_forall2 s files ms h).imp ?_
  intro f m hd
  cases hc : s.client (writeParamsOf f) with
  | error e => simp [descriptorOf, hc] at hd
  | ok data =>
    simp [descriptorOf, hc] at hd
    subst hd
    exact ⟨data, rfl, rfl, rfl, rfl⟩

/-- Witness for C6 at a concrete store and upload list. -/
theorem persist_descriptor_fields_all_filename_witness :
    demoStore.persist demoFiles = Except.ok demoMedias ∧
      List.Forall₂ (fun f m => ∃ data,
        demoStore.client (writeParamsOf f) = Except.ok data ∧
          m.src = data.filename ∧ m.previewSrc = data.filename ∧
            m.reference = data.filename) demoFiles demoMedias :=
  ⟨rfl, persist_descriptor_fields_all_filename demoStore demoFiles demoMedias rfl⟩

/-- C5: when the write call for the request after `pre` fails (all writes
for `pre` succeeding), `persist` propagates exactly that error — no
descriptor list, partial or otherwise — and the writes issued are exactly
one per request of `pre` plus the failing one: nothing after it, no retry. -/
theorem persist_write_failure_aborts_and_propagates
    (s : GitMediaStore) (pre : List MediaUploadOptions) (f : MediaUploadOptions)
    (post : List MediaUploadOptions) (e : String)
    (hpre : ∀ g ∈ pre, (descriptorOf s g).isSome = true)
    (hf : s.client (writeParamsOf f) = Except.error e) :
    s.persist (pre ++ f :: post) = Except.error e ∧
      (s.persistRun (pre ++ f :: post)).1 = (pre ++ [f]).map writeParamsOf := by
  have key : s.persistRun (pre ++ f :: post) =
      ((pre ++ [f]).map writeParamsOf, Except.error e) := by
    induction pre with
    | nil => simp [GitMediaStore.persistRun, hf]
    | cons g pre ih =>
      cases hok : s.client (writeParamsOf g) with
      | error e2 =>
        have hg := hpre g (by simp)
        simp [descriptorOf, hok] at hg
      | ok data =>
        have ihr := ih fun x hx => hpre x (by simp [hx])
        simp [GitMediaStore.persistRun, hok, ihr, Except.map]
  exact ⟨by simp [GitMediaStore.persist, key], by simp [key]⟩

/-- A client that rejects uploads with empty content and otherwise echoes
the content as the filename. -/
def failClient : GitClient :=
  fun p =>
    if p.content.length = 0 then Except.error "boom"
    else Except.ok { filename := p.content }

/-- A concrete store over `failClient`. -/
def failStore : GitMediaStore :=
  GitMediaStore.new failClient

/-- Requests before the failing one. -/
def failPre : List MediaUploadOptions :=
  [ { directory := "uploads", file := "a.png" } ]

/-- The failing request: empty content. -/
def failFile : MediaUploadOptions :=
  { directory := "uploads", file := "" }

/-- Requests after the failing one — never written. -/
def failPost : List MediaUploadOptions :=
  [ { directory := "uploads", file := "c.png" } ]

/-- Witness for C5 at a concrete store and upload list. -/
theorem persist_write_failure_aborts_and_propagates_witness :
    (∀ g ∈ failPre, (descriptorOf failStore g).isSome = true) ∧
      failStore.client (writeParamsOf failFile) = Except.error "boom" ∧
        (failStore.persist (failPre ++ failFile :: failPost) = Except.error "boom" ∧
          (failStore.persistRun (failPre ++ failFile :: failPost)).1 =
            (failPre ++ [failFile]).map writeParamsOf) :=
  ⟨by decide, rfl,
    persist_write_failure_aborts_and_propagates failStore failPre failFile
      failPost "boom" (by decide) rfl⟩

/-- C7: `find` returns the fixed placeholder descriptor on every invocation
and `list` returns the empty sequence on every invocation. -/
theorem find_placeholder_and_list_empty (s : GitMediaStore) :
    (s.find).1 =
        { src := "test.jpg", previewSrc := "test.jpg", reference := "test.jpg" } ∧
      (s.list).1 = ([] : List Media) :=
  ⟨rfl, rfl⟩

/-- C10: the constructor sets `accept` to `"*"`, and no operation of the
store changes the field: every method leaves the post-state's `accept`
equal to the receiver's. -/
theorem accept_always_star_and_preserved :
    (∀ client, (GitMediaStore.new client).accept = "*") ∧
      ∀ (s : GitMediaStore) (files : List MediaUploadOptions),
        (s.list).2.accept = s.accept ∧ (s.delete).2.accept = s.accept ∧
          (s.find).2.accept = s.accept ∧ (s.persistM files).2.accept = s.accept :=
  ⟨fun _ => rfl, fun _ _ => ⟨rfl, rfl, rfl, rfl⟩⟩

/-! ## Theorems about the editor integration -/

/-- C2: `dispatchTransaction` first updates the view with the applied
transaction's state; when `tr.docChanged` the external `onChange` callback is
invoked exactly once, with the serialization of `tr.doc`, and when the
document did not change it is not invoked at all. -/
theorem dispatchTransaction_applies_and_fires_onChange_iff_docChanged
    {Doc St : Type} (applyTr : St → Transaction Doc → St)
    (translator : Translator Doc) (viewState : St) (tr : Transaction Doc) :
    (dispatchTransaction applyTr translator viewState tr).head? =
        some (DispatchEffect.updateState (applyTr viewState tr)) ∧
      (tr.docChanged = true →
        onChangePayloads (dispatchTransaction applyTr translator viewState tr) =
          [translator.stringFromNode tr.doc]) ∧
      (tr.docChanged = false →
        onChangePayloads (dispatchTransaction applyTr translator viewState tr) = []) := by
  obtain ⟨c, d⟩ := tr
  cases c <;> simp [dispatchTransaction, onChangePayloads]

/-- A concrete translator on `Doc := Nat`: parse to the string's length,
serialize by printing. -/
def demoTranslator : Translator Nat :=
  { nodeFromString := fun s => s.length, stringFromNode := fun n => toString n }

/-- A concrete `state.apply`: sum the state with the transaction's doc. -/
def demoApply : Nat → Transaction Nat → Nat :=
  fun s t => s + t.doc

/-- Witness for C2 at a document-changing and a non-changing transaction. -/
theorem dispatchTransaction_onChange_witness :
    ((⟨true, 5⟩ : Transaction Nat).docChanged = true ∧
        onChangePayloads (dispatchTransaction demoApply demoTranslator 0
          (⟨true, 5⟩ : Transaction Nat)) = ["5"]) ∧
      ((⟨false, 5⟩ : Transaction Nat).docChanged = false ∧
        onChangePayloads (dispatchTransaction demoApply demoTranslator 0
          (⟨false, 5⟩ : Transaction Nat)) = []) :=
  ⟨⟨rfl, (dispatchTransaction_applies_and_fires_onChange_iff_docChanged
      demoApply demoTranslator 0 ⟨true, 5⟩).2.1 rfl⟩,
    ⟨rfl, (dispatchTransaction_applies_and_fires_onChange_iff_docChanged
      demoApply demoTranslator 0 ⟨false, 5⟩).2.2 rfl⟩⟩

/-- C3: with the editor mounted (element set, view present, `docView`
non-null), an external value update leaves the view untouched while the
mount element contains the focused element, and rebuilds the view state from
the new value via `createState` once it does not. -/
theorem external_update_respects_focus {St : Type} (createState : String → St)
    (e : MountElem) (v : EditorViewBox St) (value : String)
    (hdoc : v.docViewPresent = true) :
    (e.containsActiveElement = true →
        applyExternalUpdate v
          (externalValueEffect createState (some e) (some v) value) = v) ∧
      (e.containsActiveElement = false →
        (applyExternalUpdate v
          (externalValueEffect createState (some e) (some v) value)).state =
            createState value) := by
  constructor <;> intro hfocus <;>
    simp [externalValueEffect, applyExternalUpdate, hdoc, hfocus]

/-- Witness for C3 at a focused and an unfocused concrete editor. -/
theorem external_update_respects_focus_witness :
    (⟨0, true⟩ : EditorViewBox Nat).docViewPresent = true ∧
      applyExternalUpdate (⟨0, true⟩ : EditorViewBox Nat)
          (externalValueEffect String.length (some ⟨true⟩) (some ⟨0, true⟩) "abc") =
        (⟨0, true⟩ : EditorViewBox Nat) ∧
      (applyExternalUpdate (⟨0, true⟩ : EditorViewBox Nat)
          (externalValueEffect String.length (some ⟨false⟩) (some ⟨0, true⟩) "abc")).state =
        String.length "abc" :=
  ⟨rfl,
    (external_update_respects_focus String.length ⟨true⟩ ⟨0, true⟩ "abc" rfl).1 rfl,
    (external_update_respects_focus String.length ⟨false⟩ ⟨0, true⟩ "abc" rfl).2 rfl⟩

/-- C9: when the mount element is unset, the editor view is absent, or the
view's `docView` is null, the external-value effect performs no state update
at all — for every value, focused or not — so `updateState` is never reached
on a null `docView`. -/
theorem external_update_noop_without_el_view_docView {St : Type}
    (createState : String → St) (el : Option MountElem)
    (editorView : Option (EditorViewBox St)) (value : String)
    (h : el = none ∨ editorView = none ∨
        ∃ v, editorView = some v ∧ v.docViewPresent = false) :
    externalValueEffect createState el editorView value = none := by
  rcases h with rfl | rfl | ⟨v, rfl, hv⟩
  · rfl
  · cases el <;> rfl
  · cases el with
    | none => rfl
    | some e => simp [externalValueEffect, hv]

/-- Witness for C9: an unfocused mounted element whose view has a null
`docView` still gets no state update. -/
theorem external_update_noop_witness :
    ((some (⟨false⟩ : MountElem) = none ∨
        (some (⟨0, false⟩ : EditorViewBox Nat)) = none ∨
        ∃ v, (some (⟨0, false⟩ : EditorViewBox Nat)) = some v ∧
          v.docViewPresent = false) ∧
      externalValueEffect String.length (some ⟨false⟩)
        (some (⟨0, false⟩ : EditorViewBox Nat)) "abc" = none) :=
  ⟨Or.inr (Or.inr ⟨⟨0, false⟩, rfl, rfl⟩),
    external_update_noop_without_el_view_docView String.length (some ⟨false⟩)
      (some ⟨0, false⟩) "abc" (Or.inr (Or.inr ⟨⟨0, false⟩, rfl, rfl⟩))⟩

/-- C8: `createEditorState` attaches the same fixed ordered plugin sequence —
input rules, keymap, history, links, drop cursor, gap cursor, table editing,
table plugin, image plugin — for every input value; in particular the
sequence does not depend on the value being edited. -/
theorem createEditorState_plugins_fixed {Doc Schema TinaPlugin : Type}
    (schema : Schema) (translator : Translator Doc)
    (plugins : List TinaPlugin) (v v2 : String) :
    (createEditorState schema translator plugins v).statePlugins =
        [ StatePluginTag.inputRulesTag, StatePluginTag.keymapTag,
          StatePluginTag.historyTag, StatePluginTag.linksTag,
          StatePluginTag.dropCursorTag, StatePluginTag.gapCursorTag,
          StatePluginTag.tableEditingTag, StatePluginTag.tablePluginTag,
          StatePluginTag.imagePluginTag ] ∧
      (createEditorState schema translator plugins v).statePlugins =
        (createEditorState schema translator plugins v2).statePlugins :=
  ⟨rfl, rfl⟩

/-- C4 evidence: on the first mount (element attached once, then unmount)
the hook creates view 0 but the cleanup destroys nothing — the
`if (editorView)` guard reads the closure's captured `editorView` snapshot,
which was still `undefined` when `setupEditor` ran, so `view.destroy()` is
skipped and the claimed destroy-on-unmount does not happen. -/
theorem unmount_skips_view_destroy :
    (runWysiwyg [WysiwygEvent.attachElement { containsActiveElement := false },
        WysiwygEvent.unmount]).createdViews = [0] ∧
      (runWysiwyg [WysiwygEvent.attachElement { containsActiveElement := false },
          WysiwygEvent.unmount]).destroyedViews = [] :=
  ⟨rfl, rfl⟩

/-- Companion to the C4 evidence: the destroy logic itself is reachable —
after a remount the second cleanup does destroy its view (the captured
snapshot is then non-null), so the skipped destroy on first mount is the
stale capture, not a missing call. -/
theorem remount_destroys_second_view_only :
    (runWysiwyg [WysiwygEvent.attachElement { containsActiveElement := false },
        WysiwygEvent.attachElement { containsActiveElement := true },
        WysiwygEvent.unmount]).createdViews = [0, 1] ∧
      (runWysiwyg [WysiwygEvent.attachElement { containsActiveElement := false },
          WysiwygEvent.attachElement { containsActiveElement := true },
          WysiwygEvent.unmount]).destroyedViews = [1] :=
  ⟨rfl, rfl⟩
